import Mathlib

/-!
Verification of the bank-statement extraction pipeline.

Shallow embedding of the core of `llm-bank-statement-processor`:

* `src/app/services/bank_statement_service.py` — `_extract_json_from_text`,
  `_validate_result_structure`, `process_text`, `process_file`;
* `src/app/services/pdf_text_service.py` — `_extract_text_directly`,
  `_extract_text_with_ocr`, `extract_text_from_pdf_bytes`;
* `src/app/BankStatement/processor.py` — `prepare_prompt`.

Python strings are modelled as `String`/`List Char`; Python dicts holding
JSON-like data as association lists over an inductive `Json` type; the
opaque external collaborators (the generative model, `json.loads`,
PyPDF2 page extraction, OCR, the temp-file system calls, `time.time()`)
are parameters of the embedded functions; a collaborator raising an
exception is modelled by an `Except.error` carrying `str(e)`.
-/

set_option maxRecDepth 4096

/-- JSON-like values as produced by `json.loads`: `None`, `bool`, numbers,
strings, lists and dicts (comparison with dicts is by association list,
first binding wins — Python dicts have unique keys so this is faithful). -/
inductive Json where
  | null : Json
  | bool : Bool → Json
  | num : Int → Json
  | str : String → Json
  | arr : List Json → Json
  | obj : List (String × Json) → Json

/-- Python `key in dict`. -/
def has_key (fields : List (String × Json)) (k : String) : Bool :=
  fields.any (fun p => p.fst == k)

/-- Python `dict.get(key)` (`None` when absent is `Option.none`). -/
def get_key : List (String × Json) → String → Option Json
  | [], _ => none
  | p :: ps, k => if p.fst == k then some p.snd else get_key ps k

/-- Python `dict[key] = v`: overwrite in place when present, append otherwise. -/
def set_key (fields : List (String × Json)) (k : String) (v : Json) :
    List (String × Json) :=
  if has_key fields k then
    fields.map (fun p => if p.fst == k then (k, v) else p)
  else fields ++ [(k, v)]

/-- Python `str.strip()` on a character list: drop whitespace from both ends. -/
def strip_chars (l : List Char) : List Char :=
  ((l.dropWhile Char.isWhitespace).reverse.dropWhile Char.isWhitespace).reverse

/-- Python `str.strip()`. -/
def strip (s : String) : String :=
  ⟨strip_chars s.data⟩

/-- Python `str.find(c)`, returning `none` instead of `-1`. -/
def find_char (c : Char) : List Char → Option Nat
  | [] => none
  | x :: xs => if x == c then some 0 else (find_char c xs).map (· + 1)

/-- The brace-counting loop of `_extract_json_from_text`
(`bank_statement_service.py` lines 205–215): scan the characters, adding 1
for an opening brace and subtracting 1 for a closing brace; stop at the index where the counter
reaches zero.  `brace_count` is the counter value when entering the list. -/
def find_closing_brace : List Char → Int → Option Nat
  | [], _ => none
  | c :: cs, brace_count =>
    if c == '\x7b' then (find_closing_brace cs (brace_count + 1)).map (· + 1)
    else if c == '\x7d' then
      if brace_count - 1 = 0 then some 0
      else (find_closing_brace cs (brace_count - 1)).map (· + 1)
    else (find_closing_brace cs brace_count).map (· + 1)

/-- Embedding of `_extract_json_from_text` on a character list: strip, find the first
an opening brace, scan for the matching close brace, slice inclusively, strip again;
any failure returns the empty string. -/
def extract_json_chars (text : List Char) : List Char :=
  let t := strip_chars text
  match find_char '\x7b' t with
  | none => []
  | some start_idx =>
    match find_closing_brace (t.drop start_idx) 0 with
    | none => []
    | some k => strip_chars ((t.drop start_idx).take (k + 1))

/-- Embedding of `BankStatementService._extract_json_from_text`. -/
def extract_json_from_text (text : String) : String :=
  ⟨extract_json_chars text.data⟩

/-- Net brace count of a character list: open-brace count minus close-brace count. -/
def brace_depth : List Char → Int
  | [] => 0
  | c :: cs =>
    (if c == '\x7b' then 1 else if c == '\x7d' then (-1 : Int) else 0) + brace_depth cs

/-- A balanced brace block: starts with an opening brace, has net brace count zero, and
every proper nonempty head segment has positive net count (so the count
first returns to zero exactly at the final character).  This is the
spec's notion of "balanced top-level JSON object" measured the way the
code measures it, by raw brace counting. -/
def BalancedBraces (l : List Char) : Prop :=
  l.head? = some '\x7b' ∧ brace_depth l = 0 ∧
    ∀ n, n < l.length → 0 < n → 0 < brace_depth (l.take n)

instance (l : List Char) : Decidable (BalancedBraces l) := by
  unfold BalancedBraces
  infer_instance

/-- Executable check for `BalancedBraces`. -/
def balanced_b (l : List Char) : Bool :=
  decide (BalancedBraces l)

/-- All slices `text[i:j]` that are balanced brace blocks; used to state
"the text contains exactly one balanced top-level JSON object". -/
def balanced_occurrences (text : List Char) : List (Nat × Nat) :=
  (List.range (text.length + 1)).flatMap fun i =>
    (List.range (text.length + 1)).filterMap fun j =>
      if balanced_b ((text.take j).drop i) then some (i, j) else none

/-- The `required_fields` list of `_validate_result_structure`. -/
def required_fields : List String := ["bank_name", "statement_period", "accounts"]

/-- Embedding of `BankStatementService._validate_result_structure`: the three required
top-level keys must be present, `statement_period` must be a dict holding
`start_date` and `end_date`, and `accounts` must be a list. -/
def validate_result_structure (result : List (String × Json)) : Bool :=
  if required_fields.all (fun f => has_key result f) then
    match get_key result "statement_period" with
    | some (Json.obj period) =>
      if has_key period "start_date" && has_key period "end_date" then
        match get_key result "accounts" with
        | some (Json.arr _) => true
        | _ => false
      else false
    | _ => false
  else false

/-- The result dicts the service returns: `success`, `message`, `error`,
`data`, and — only for the PDF-service dicts — a `method_used` key
(`none` = key absent, `some none` = key present holding Python `None`). -/
structure PyResult where
  success : Bool
  message : String
  error : Option String
  data : Json
  method_used : Option (Option String)

/-- Models `str(e)` for the `TypeError` the interpreter raises at
`parsed_result["processed_at"] = ...` when `json.loads` returned a
non-dict; the exact wording is type-dependent and irrelevant here. -/
def item_assignment_error_message : String :=
  "object does not support item assignment"

/-- Embedding of `BankStatementService.process_text`.

* `loaded` — whether `self.processor` is non-`None`;
* `gen` — `self.processor.process` (the generative capability);
  `Except.error e` models it raising an exception with `str(e) = e`;
* `parse` — `json.loads`; `Except.error e` models `json.JSONDecodeError`;
* `processed_at`, `processing_time` — the two timestamp values stamped
  into the parsed dict (external `time.time()` state);
* `time_msg` — the rendered `f"{processing_time:.2f}"` of the success
  message. -/
def process_text (loaded : Bool) (gen : String → Except String String)
    (parse : String → Except String Json)
    (processed_at processing_time : Json) (time_msg : String)
    (text_content : String) : PyResult :=
  if !loaded then
    ⟨false, "AI model not loaded", some "MODEL_NOT_LOADED", Json.null, none⟩
  else if text_content = "" || strip text_content = "" then
    ⟨false, "Empty text content provided", some "TEXT_EMPTY", Json.null, none⟩
  else
    match gen text_content with
    | Except.error e =>
      ⟨false, "Failed to process bank statement", some e, Json.null, none⟩
    | Except.ok result =>
      let json_content := extract_json_from_text result
      if json_content = "" then
        ⟨false, "AI model output does not contain valid JSON",
          some "NO_JSON_FOUND", Json.str result, none⟩
      else
        match parse json_content with
        | Except.error e =>
          ⟨false, "AI model returned invalid JSON format",
            some "INVALID_JSON_FORMAT",
            Json.obj [("raw_output", Json.str result),
              ("extracted_content", Json.str json_content),
              ("parse_error", Json.str e)], none⟩
        | Except.ok parsed =>
          match parsed with
          | Json.obj fields =>
            let stamped :=
              set_key (set_key fields "processed_at" processed_at)
                "processing_time_seconds" processing_time
            if !validate_result_structure stamped then
              ⟨false, "AI model returned invalid data structure",
                some "INVALID_AI_OUTPUT", Json.obj stamped, none⟩
            else
              ⟨true,
                "Bank statement processed successfully in " ++ time_msg
                  ++ " seconds", none, Json.obj stamped, none⟩
          | _ =>
            ⟨false, "Failed to process bank statement",
              some item_assignment_error_message, Json.null, none⟩

/-- The page loop shared by `_extract_text_directly` and
`_extract_text_with_ocr`: append each truthy page text plus `"\n"`. -/
def joined_pages (pages : List String) : String :=
  pages.foldl (fun acc p => if p ≠ "" then acc ++ p ++ "\n" else acc) ""

/-- Embedding of `PDFTextService._extract_text_directly`.  Here `outcome` is the PyPDF2
collaborator: `.ok pages` gives the per-page `page.extract_text()`
strings, `.error e` models the reader raising an exception. -/
def extract_text_directly (outcome : Except String (List String))
    (filename : String) : PyResult :=
  match outcome with
  | Except.error e =>
    ⟨false, "Direct text extraction failed for " ++ filename, some e,
      Json.null, some (some "direct")⟩
  | Except.ok pages =>
    let extracted_text := strip (joined_pages pages)
    if extracted_text ≠ "" then
      ⟨true, "Successfully extracted text directly from " ++ filename, none,
        Json.str extracted_text, some (some "direct")⟩
    else
      ⟨false, "No text found in " ++ filename ++ " using direct extraction",
        some "NO_TEXT_FOUND", Json.null, some (some "direct")⟩

/-- Embedding of `PDFTextService._extract_text_with_ocr`.  Here `outcome` is the
`pdf2image`/`pytesseract` collaborator: `.ok pages` gives the per-page
OCR strings, `.error e` models either library raising an exception. -/
def extract_text_with_ocr (outcome : Except String (List String))
    (filename : String) : PyResult :=
  match outcome with
  | Except.error e =>
    ⟨false, "OCR extraction failed for " ++ filename, some e,
      Json.null, some (some "ocr")⟩
  | Except.ok pages =>
    let extracted_text := strip (joined_pages pages)
    if extracted_text ≠ "" then
      ⟨true, "Successfully extracted text using OCR from " ++ filename, none,
        Json.str extracted_text, some (some "ocr")⟩
    else
      ⟨false, "No text found in " ++ filename ++ " using OCR",
        some "NO_TEXT_FOUND", Json.null, some (some "ocr")⟩

/-- The `tempfile.NamedTemporaryFile(delete=False)` block of
`extract_text_from_pdf_bytes`:

* `ok` — the file was created, the upload written, `temp_file_path`
  recorded;
* `write_error msg` — the file was created on disk but `temp_file.write`
  raised, so `temp_file_path` was never assigned;
* `create_error msg` — `NamedTemporaryFile` itself raised before a file
  existed. -/
inductive TmpOutcome where
  | ok : TmpOutcome
  | write_error : String → TmpOutcome
  | create_error : String → TmpOutcome

/-- The Python truthiness test `result["data"] and result["data"].strip()`
used on the direct-extraction result. -/
def data_truthy_stripped : Json → Bool
  | Json.str s => s ≠ "" && strip s ≠ ""
  | _ => false

/-- Embedding of `PDFTextService.extract_text_from_pdf_bytes`, with the temporary-file
side effect made explicit: the second component of the result is whether
the temporary file still exists on disk after the `finally` block ran.
The `finally` clause unlinks the file only when `temp_file_path` was
assigned and the file exists. -/
def extract_text_from_pdf_bytes
    (pdf_reader_available ocr_available : Bool) (tmp : TmpOutcome)
    (direct_outcome ocr_outcome : Except String (List String))
    (filename : String) (force_ocr : Bool) : PyResult × Bool :=
  if !(pdf_reader_available || ocr_available) then
    (⟨false, "No PDF text extraction libraries available",
      some "NO_EXTRACTION_LIBRARIES", Json.null, some none⟩, false)
  else
    match tmp with
    | TmpOutcome.create_error msg =>
      -- caught by `except Exception`; no file was created, nothing to unlink
      (⟨false, "Failed to extract text from " ++ filename, some msg,
        Json.null, some none⟩, false)
    | TmpOutcome.write_error msg =>
      -- caught by `except Exception`; the file exists on disk but
      -- `temp_file_path` is still `None`, so `finally` does not unlink it
      (⟨false, "Failed to extract text from " ++ filename, some msg,
        Json.null, some none⟩, true)
    | TmpOutcome.ok =>
      if !force_ocr && pdf_reader_available then
        let r := extract_text_directly direct_outcome filename
        if r.success && data_truthy_stripped r.data then (r, false)
        else if ocr_available then
          (extract_text_with_ocr ocr_outcome filename, false)
        else
          (⟨false,
            "Direct text extraction failed and OCR not available for "
              ++ filename, some "OCR_NOT_AVAILABLE", Json.null,
            some (some "none")⟩, false)
      else if ocr_available then
        (extract_text_with_ocr ocr_outcome filename, false)
      else
        (⟨false,
          "Direct text extraction failed and OCR not available for "
            ++ filename, some "OCR_NOT_AVAILABLE", Json.null,
          some (some "none")⟩, false)

/-- The `extraction_result["data"]` value read back as the text handed to
`process_text`; on every success result of the PDF service this is a
string. -/
def data_as_str : Json → String
  | Json.str s => s
  | _ => ""

/-- Embedding of `BankStatementService.process_file`.  Here `is_service_available()` is
`pdf_reader_available || ocr_available`, exactly as in
`pdf_text_service.py`.  The remaining parameters are as in
`process_text` and `extract_text_from_pdf_bytes`. -/
def process_file (loaded : Bool) (pdf_reader_available ocr_available : Bool)
    (tmp : TmpOutcome) (direct_outcome ocr_outcome : Except String (List String))
    (gen : String → Except String String) (parse : String → Except String Json)
    (processed_at processing_time : Json) (time_msg : String)
    (filename : String) (force_ocr : Bool) : PyResult :=
  if !loaded then
    ⟨false, "AI model not loaded", some "MODEL_NOT_LOADED", Json.null, none⟩
  else if !(pdf_reader_available || ocr_available) then
    ⟨false, "PDF text extraction service not available",
      some "PDF_SERVICE_NOT_AVAILABLE", Json.null, none⟩
  else
    let extraction :=
      (extract_text_from_pdf_bytes pdf_reader_available ocr_available tmp
        direct_outcome ocr_outcome filename force_ocr).fst
    if !extraction.success then extraction
    else
      let extracted_text := data_as_str extraction.data
      let extraction_method : Json :=
        match extraction.method_used with
        | some (some m) => Json.str m
        | some none => Json.null
        | none => Json.str "unknown"
      let result := process_text loaded gen parse processed_at
        processing_time time_msg extracted_text
      match result.data with
      | Json.obj fields =>
        if result.success && !fields.isEmpty then
          { result with
            data := Json.obj (set_key fields "extraction_method"
              extraction_method) }
        else result
      | _ => result

/-- Substring match at the head: `starts_with needle hay` is true when
`hay` begins with `needle`. -/
def starts_with : List Char → List Char → Bool
  | [], _ => true
  | _ :: _, [] => false
  | n :: ns, h :: hs => n == h && starts_with ns hs

/-- Python `needle in hay` on strings. -/
def contains_str (needle : List Char) : List Char → Bool
  | [] => starts_with needle []
  | c :: t => starts_with needle (c :: t) || contains_str needle t

/-- JSON string escaping as `json.dumps` renders the characters used here
(quote and backslash; other characters pass through). -/
def escape_json_char (c : Char) : String :=
  if c == '"' then "\\\"" else if c == '\\' then "\\\\" else String.singleton c

/-- Render a JSON string literal with surrounding quotes. -/
def serialize_string (s : String) : String :=
  "\"" ++ String.join (s.data.map escape_json_char) ++ "\""

mutual

/-- Standard JSON rendering of a `Json` value (the `json.dumps` layout with
`", "` and `": "` separators); any value in its range is valid JSON text. -/
def serialize : Json → String
  | Json.null => "null"
  | Json.bool true => "true"
  | Json.bool false => "false"
  | Json.num n => toString n
  | Json.str s => serialize_string s
  | Json.arr xs => "[" ++ serialize_list xs ++ "]"
  | Json.obj fs => "\x7b" ++ serialize_fields fs ++ "\x7d"

/-- Comma-separated rendering of array elements. -/
def serialize_list : List Json → String
  | [] => ""
  | [x] => serialize x
  | x :: y :: xs => serialize x ++ ", " ++ serialize_list (y :: xs)

/-- Comma-separated rendering of object members. -/
def serialize_fields : List (String × Json) → String
  | [] => ""
  | [(k, v)] => serialize_string k ++ ": " ++ serialize v
  | (k, v) :: f :: fs =>
    serialize_string k ++ ": " ++ serialize v ++ ", " ++ serialize_fields (f :: fs)

end

/-- The string constant returned by
`BankStatementProcessor.prepare_prompt` (`processor.py` lines 86–90),
transcribed verbatim: a chat-template wrapper around a fixed instruction
block that already embeds a hard-coded Maybank statement as its
`INPUT TEXT`. -/
def prompt_template : String :=
    "<|im_start|>user\n        SGD Current Account Account Number 04171089735 0pening Balance 24,837.69 01 Jan Payment to IYBB Loan, 11,012.01 13,825.68 ***" ++
    "****9715 09 Jan FT vr\x27a FAST 1 ,050.00 12 .7/5 .68 ClvlA CGl\"l AND ANL SECU, *******0103, 0THR- l nvoi ces SGDE02469i , A249?8,0?4980 09 Jan FT vi a F" ++
    "AST Svc Chg 0.50 7? ,715 .18 ClvlA CGMND ANL SECU, *******0103, 0IHR lnvoi ces SGDE024697 , 024928,024980 12 Jan Cheque Deposit SBI 0318033 10,000.00 " ++
    "?2,775.78 ?2 Jan FT vi a FAST 300.00 2? ,475 .78 Etle rg f-e.en_[ar r n e AS i, t..1111€001- O_Lti R- I NV 24003496 B 1 433603-+6066 ?? Jan FT via FAS" ++
    "T Svc Chg - 0.50 22,47 4.68 Evergreen Marine Asi, ********8001, 0THR-lNV 24003496 81143360346066 Total DR/CR Items i0,000.00 12,363.01 USD Current Acc" ++
    "ount Account Number 64770059397 0pen l ng Bal ance 31 Jan Interest Earned 0.30 6 ,904 .7 B 5 ,905 . 0B Total DR/CR I tems \x27., 0.00 0.30 SGD Term Loan " ++
    "Account Number 44?1007 97 15 01 Jan 01 Jan 31 Jan Bal ance B/F Pni nci pa l Payment lnterest Payment lnterest Billed 10,509.76 You are an expert AI sy" ++
    "stem that extracts structured data from bank statements and outputs ONLY valid JSON. Your task: Extract data from the bank statement text and return O" ++
    "NLY a single, valid JSON object. CRITICAL RULES: 1. Output ONLY valid JSON - no explanations, no comments, no extra text 2. Use proper JSON syntax - d" ++
    "ouble quotes for strings, no trailing commas 3. Use null for missing values, not \"null\" as a string 4. Numbers must be numeric, not strings 5. Dates m" ++
    "ust be YYYY-MM-DD format JSON STRUCTURE (follow exactly): \x7b \"bank_name\": \"string\", \"statement_period\": \x7b \"start_date\": \"YYYY-MM-DD\", \"end_date\": \"YYYY" ++
    "-MM-DD\" \x7d, \"accounts\": [ \x7b \"account_number\": \"string\", \"account_name\": \"string\", \"currency\": \"string\", \"opening_balance\": number, \"closing_balance\": n" ++
    "umber, \"transactions\": [ \x7b \"date\": \"YYYY-MM-DD\", \"description\": \"string\", \"debit\": number, \"balance\": number, \"note\": \"string\" \x7d ] \x7d ] \x7d EXTRACTION RU" ++
    "LES: - Use either \"debit\" OR \"credit\" per transaction, never both - All amounts as positive numbers - Extract account numbers, names, balances exactly" ++
    " as shown - Include ALL transactions found - If data is unclear/missing, use null INPUT TEXT: @m\"ybank SGD Current Account Account Number 04171089735 " ++
    "0pening Balance 01 Jan Payment to IYBB Loan, *******9715 09 Jan FT vr\x27a FAST 1 ,050.00 ClvlA CGl\"l AND ANL SECU, *******0103, 0THR- l nvoi ces SGDE024" ++
    "69i 09 Jan FT vi a FAST Svc Chg ClvlA CGMND ANL SECU, *******0103, 12 Jan Cheque Deposit SBI 0318033 ?2 Jan FT vi a FAST 24,837.69 13,825.68 11,012.01" ++
    " 0.50 12 .7/5 .68 , A249?8,0?4980 7? ,715 .18 0IHR lnvoi ces SGDE024697 , 024928,024980 300.00 10,000.00 Etle rg f-e.en_[ar r n e AS i, t..1111€001- O" ++
    "_Lti R- I NV 24003496 B 1 433603-+6066 ?? Jan FT via FAST Svc Chg 0.50 Evergreen Marine Asi, ********8001, 0THR-lNV 24003496 81143360346066 Total DR/C" ++
    "R Items 12,363.01 USD Current Account 6 ,904 .7 B 0.00 5 ,905 . 0B 0.30 Account Number 44?1007 97 15 Bal ance B/F Pni nci pa l Payment lnterest Paymen" ++
    "t lnterest Billed i0,000.00 0.30 SGD Term Loan 01 Jan 01 Jan 31 Jan 22,47 4.68 Account Number 64770059397 0pen l ng Bal ance 31 Jan Interest Earned To" ++
    "tal DR/CR I tems \x27., ?2,775.78 2? ,475 .78 215,540.0510,509.76 502.25 477 .7A 205 ,030 . 29 244 ,528 .04 245 ,AA5 .7 4 - -.1 All jtems and balances sh" ++
    "own above wi l l be consjdened cornect unless Bank js notifjed of any di screpanci es wi thi n 14 days fnom the date of the statement. /l For Investme" ++
    "nt Accounts: Unit pnice is the bid/NAV price per unit as at the last business day of the calendan month for the respective funds. Nothing in this stat" ++
    "ement shall be constnued by the unit holden(s) as our investment advice. The information herein is not pnovided as an adviser and we shall not assume " ++
    "any responsibility for the accunacy.and completeness of such infonmation on the perfonmance of any investment made by the unr\x27t holden(s) upon relianc" ++
    "e on such information. CSR004P.3101202 4(4085270/04177089735 ) ( S5261 ) ( Pg2l3) (A994) ( N/ L/000000) Maybank Singapore Limited (UEN: 201S04195C) PA" ++
    "GE 2 OF 3 OUTPUT (valid JSON only):\n<|im_end|>\n<|im_start|>assistant\n"

/-- Embedding of `BankStatementProcessor.prepare_prompt`: the `pdf_text` parameter is
ignored and the hard-coded template is returned unchanged. -/
def prepare_prompt (pdf_text : String) : String :=
  prompt_template

/-- The documented error taxonomy (spec section 7). -/
def error_taxonomy : List String :=
  ["MODEL_NOT_LOADED", "TEXT_EMPTY", "NO_EXTRACTION_LIBRARIES",
   "FILE_NOT_FOUND", "NO_TEXT_FOUND", "OCR_NOT_AVAILABLE", "NO_JSON_FOUND",
   "INVALID_JSON_FORMAT", "INVALID_AI_OUTPUT"]

lemma brace_depth_append (a b : List Char) :
    brace_depth (a ++ b) = brace_depth a + brace_depth b := by
  induction a with
  | nil => simp [brace_depth]
  | cons c cs ih => simp [brace_depth, ih]; ring

lemma dropWhile_append_of_eq_self {α : Type} (p : α → Bool) (xs ys : List α)
    (h : ys.dropWhile p = ys) :
    (xs ++ ys).dropWhile p = xs.dropWhile p ++ ys := by
  induction xs with
  | nil => simpa using h
  | cons x xs ih =>
    by_cases hx : p x
    · simp [List.dropWhile_cons, hx, ih]
    · simp [List.dropWhile_cons, hx]

lemma dropWhile_eq_self_of_head {α : Type} (p : α → Bool) (l : List α) (a : α)
    (h : l.head? = some a) (ha : p a = false) : l.dropWhile p = l := by
  cases l with
  | nil => rfl
  | cons x xs =>
    simp only [List.head?_cons, Option.some.injEq] at h
    subst h
    simp [List.dropWhile_cons, ha]

lemma mem_dropWhile_of_mem {α : Type} (p : α → Bool) (l : List α) (a : α)
    (h : a ∈ l) (ha : p a = false) : a ∈ l.dropWhile p := by
  induction l with
  | nil => cases h
  | cons x xs ih =>
    by_cases hx : p x
    · rcases List.mem_cons.mp h with rfl | hmem
      · rw [hx] at ha
        cases ha
      · simp [List.dropWhile_cons, hx, ih hmem]
    · simpa [List.dropWhile_cons, hx] using h

lemma mem_of_mem_dropWhile {α : Type} (p : α → Bool) (l : List α) (a : α)
    (h : a ∈ l.dropWhile p) : a ∈ l := by
  induction l with
  | nil => cases h
  | cons x xs ih =>
    by_cases hx : p x
    · simp only [List.dropWhile_cons, hx, if_true] at h
      exact List.mem_cons_of_mem x (ih h)
    · simpa [List.dropWhile_cons, hx] using h

lemma mem_strip_chars_of_mem (l : List Char) (a : Char)
    (h : a ∈ l) (ha : a.isWhitespace = false) : a ∈ strip_chars l := by
  unfold strip_chars
  rw [List.mem_reverse]
  apply mem_dropWhile_of_mem _ _ _ _ ha
  rw [List.mem_reverse]
  exact mem_dropWhile_of_mem _ _ _ h ha

lemma mem_of_mem_strip_chars (l : List Char) (a : Char)
    (h : a ∈ strip_chars l) : a ∈ l := by
  unfold strip_chars at h
  rw [List.mem_reverse] at h
  have h2 := mem_of_mem_dropWhile _ _ _ h
  rw [List.mem_reverse] at h2
  exact mem_of_mem_dropWhile _ _ _ h2

lemma strip_chars_shape (pre obj post : List Char)
    (hhead : obj.head? = some '\x7b') (hlast : obj.getLast? = some '\x7d') :
    strip_chars (pre ++ obj ++ post) =
      pre.dropWhile Char.isWhitespace ++ obj ++
        (post.reverse.dropWhile Char.isWhitespace).reverse := by
  unfold strip_chars
  have hobj : (obj ++ post).dropWhile Char.isWhitespace = obj ++ post := by
    apply dropWhile_eq_self_of_head _ _ '\x7b'
    · cases obj with
      | nil => simp at hhead
      | cons c cs =>
        simp only [List.head?_cons, Option.some.injEq] at hhead
        simp [hhead]
    · decide
  have hrev : obj.reverse.head? = some '\x7d' := by
    rw [List.head?_reverse]
    exact hlast
  rw [List.append_assoc, dropWhile_append_of_eq_self _ _ _ hobj,
    ← List.append_assoc, List.reverse_append, List.reverse_append]
  have hobj2 : (obj.reverse ++ (pre.dropWhile Char.isWhitespace).reverse).dropWhile
      Char.isWhitespace = obj.reverse ++ (pre.dropWhile Char.isWhitespace).reverse := by
    apply dropWhile_eq_self_of_head _ _ '\x7d'
    · cases hr : obj.reverse with
      | nil => rw [hr] at hrev; cases hrev
      | cons c cs =>
        rw [hr] at hrev
        simp only [List.head?_cons, Option.some.injEq] at hrev
        simp [hrev]
    · decide
  rw [List.append_assoc, dropWhile_append_of_eq_self _ _ _ hobj2]
  simp

lemma find_char_eq_none_of_not_mem (c : Char) (l : List Char) (h : c ∉ l) :
    find_char c l = none := by
  induction l with
  | nil => rfl
  | cons x xs ih =>
    have hx : (x == c) = false := by
      simp only [beq_eq_false_iff_ne, ne_eq]
      rintro rfl
      exact h (List.mem_cons_self x xs)
    simp only [find_char, hx, if_false]
    rw [ih (fun hm => h (List.mem_cons_of_mem x hm))]
    rfl

lemma find_char_ne_none_of_mem (c : Char) (l : List Char) (h : c ∈ l) :
    find_char c l ≠ none := by
  induction l with
  | nil => cases h
  | cons x xs ih =>
    by_cases hx : x == c
    · simp [find_char, hx]
    · rcases List.mem_cons.mp h with rfl | hmem
      · simp at hx
      · simp only [find_char, hx, if_false]
        intro hmap
        exact ih hmem (Option.map_eq_none.mp hmap)

lemma find_char_append (c : Char) (xs ys : List Char)
    (h1 : c ∉ xs) (h2 : ys.head? = some c) :
    find_char c (xs ++ ys) = some xs.length := by
  induction xs with
  | nil =>
    cases ys with
    | nil => cases h2
    | cons y t =>
      simp only [List.head?_cons, Option.some.injEq] at h2
      subst h2
      simp [find_char]
  | cons x t ih =>
    have hx : ¬ (x == c) = true := by
      simp only [beq_iff_eq]
      rintro rfl
      exact h1 (List.mem_cons_self x t)
    rw [List.cons_append, find_char, if_neg hx,
      ih (fun hm => h1 (List.mem_cons_of_mem x hm)), Option.map_some']
    rfl

lemma fcb_cons (c : Char) (cs : List Char) (d : Int) :
    find_closing_brace (c :: cs) d =
      if c == '\x7b' then (find_closing_brace cs (d + 1)).map (· + 1)
      else if c == '\x7d' then
        if d - 1 = 0 then some 0
        else (find_closing_brace cs (d - 1)).map (· + 1)
      else (find_closing_brace cs d).map (· + 1) := rfl

lemma fcb_append (l r : List Char) (d : Int) (i : Nat)
    (h : find_closing_brace l d = some i) :
    find_closing_brace (l ++ r) d = some i := by
  induction l generalizing d i with
  | nil => cases h
  | cons c cs ih =>
    rw [List.cons_append, fcb_cons] at *
    by_cases hc : (c == '\x7b') = true
    · rw [if_pos hc] at h ⊢
      rcases Option.map_eq_some'.mp h with ⟨j, hj, hij⟩
      rw [ih _ _ hj, Option.map_some', hij]
    · rw [if_neg hc] at h ⊢
      by_cases hc2 : (c == '\x7d') = true
      · rw [if_pos hc2] at h ⊢
        by_cases hd : d - 1 = 0
        · rw [if_pos hd] at h ⊢
          exact h
        · rw [if_neg hd] at h ⊢
          rcases Option.map_eq_some'.mp h with ⟨j, hj, hij⟩
          rw [ih _ _ hj, Option.map_some', hij]
      · rw [if_neg hc2] at h ⊢
        rcases Option.map_eq_some'.mp h with ⟨j, hj, hij⟩
        rw [ih _ _ hj, Option.map_some', hij]

lemma fcb_some (l : List Char) (d : Int) (i : Nat)
    (h : find_closing_brace l d = some i) :
    i < l.length ∧ d + brace_depth (l.take (i + 1)) = 0 := by
  induction l generalizing d i with
  | nil => cases h
  | cons c cs ih =>
    rw [fcb_cons] at h
    by_cases hc : (c == '\x7b') = true
    · rw [if_pos hc] at h
      rcases Option.map_eq_some'.mp h with ⟨j, hj, hij⟩
      rcases ih _ _ hj with ⟨hlen, hdep⟩
      subst hij
      refine ⟨by simpa using Nat.succ_lt_succ hlen, ?_⟩
      simp only [List.take_succ_cons, brace_depth, hc, if_pos]
      omega
    · rw [if_neg hc] at h
      by_cases hc2 : (c == '\x7d') = true
      · rw [if_pos hc2] at h
        by_cases hd : d - 1 = 0
        · rw [if_pos hd] at h
          cases h
          refine ⟨by simp, ?_⟩
          simp only [List.take_succ_cons, List.take_zero, brace_depth]
          rw [if_neg hc, if_pos hc2]
          omega
        · rw [if_neg hd] at h
          rcases Option.map_eq_some'.mp h with ⟨j, hj, hij⟩
          rcases ih _ _ hj with ⟨hlen, hdep⟩
          subst hij
          refine ⟨by simpa using Nat.succ_lt_succ hlen, ?_⟩
          simp only [List.take_succ_cons, brace_depth]
          rw [if_neg hc, if_pos hc2]
          omega
      · rw [if_neg hc2] at h
        rcases Option.map_eq_some'.mp h with ⟨j, hj, hij⟩
        rcases ih _ _ hj with ⟨hlen, hdep⟩
        subst hij
        refine ⟨by simpa using Nat.succ_lt_succ hlen, ?_⟩
        simp only [List.take_succ_cons, brace_depth]
        rw [if_neg hc, if_neg hc2]
        omega

lemma fcb_spec (cs : List Char) (d : Int) (hd : 0 < d)
    (hpre : ∀ n, n < cs.length → 0 < d + brace_depth (cs.take n))
    (htot : d + brace_depth cs = 0) :
    find_closing_brace cs d = some (cs.length - 1) := by
  induction cs generalizing d with
  | nil =>
    exfalso
    simp only [brace_depth] at htot
    omega
  | cons c cs ih =>
    have hne : cs ≠ [] → cs.length - 1 + 1 = cs.length := by
      intro h
      have := List.length_pos.mpr h
      omega
    rw [fcb_cons]
    by_cases hc : (c == '\x7b') = true
    · rw [if_pos hc]
      have htot' : (d + 1) + brace_depth cs = 0 := by
        simp only [brace_depth, hc, if_pos] at htot
        omega
      have hcs : cs ≠ [] := by
        rintro rfl
        simp [brace_depth] at htot'
        omega
      rw [ih (d + 1) (by omega) ?_ htot', Option.map_some']
      · rw [hne hcs]
        simp
      · intro n hn
        have := hpre (n + 1) (by simpa using Nat.succ_lt_succ hn)
        simp only [List.take_succ_cons, brace_depth, hc, if_pos] at this
        omega
    · rw [if_neg hc]
      by_cases hc2 : (c == '\x7d') = true
      · rw [if_pos hc2]
        have htot' : (d - 1) + brace_depth cs = 0 := by
          simp only [brace_depth] at htot
          rw [if_neg hc, if_pos hc2] at htot
          omega
        by_cases hd1 : d - 1 = 0
        · rw [if_pos hd1]
          have hcs : cs = [] := by
            cases cs with
            | nil => rfl
            | cons x xs =>
              exfalso
              have := hpre 1 (by simp)
              simp only [List.take_succ_cons, List.take_zero, brace_depth] at this
              rw [if_neg hc, if_pos hc2] at this
              simp [brace_depth] at this
              omega
          subst hcs
          simp
        · rw [if_neg hd1]
          have hcs : cs ≠ [] := by
            rintro rfl
            simp [brace_depth] at htot'
            omega
          rw [ih (d - 1) (by omega) ?_ htot', Option.map_some']
          · rw [hne hcs]
            simp
          · intro n hn
            have := hpre (n + 1) (by simpa using Nat.succ_lt_succ hn)
            simp only [List.take_succ_cons, brace_depth] at this
            rw [if_neg hc, if_pos hc2] at this
            omega
      · rw [if_neg hc2]
        have htot' : d + brace_depth cs = 0 := by
          simp only [brace_depth] at htot
          rw [if_neg hc, if_neg hc2] at htot
          omega
        have hcs : cs ≠ [] := by
          rintro rfl
          simp [brace_depth] at htot'
          omega
        rw [ih d hd ?_ htot', Option.map_some']
        · rw [hne hcs]
          simp
        · intro n hn
          have := hpre (n + 1) (by simpa using Nat.succ_lt_succ hn)
          simp only [List.take_succ_cons, brace_depth] at this
          rw [if_neg hc, if_neg hc2] at this
          omega

lemma balanced_ne_nil {l : List Char} (h : BalancedBraces l) : l ≠ [] := by
  rintro rfl
  cases h.1

lemma balanced_cons {l : List Char} (h : BalancedBraces l) :
    ∃ tl, l = '\x7b' :: tl := by
  cases l with
  | nil => cases h.1
  | cons c cs =>
    have := h.1
    simp only [List.head?_cons, Option.some.injEq] at this
    exact ⟨cs, by rw [this]⟩

lemma depth_singleton (c : Char) :
    brace_depth [c] = if c == '\x7b' then 1 else if c == '\x7d' then (-1 : Int) else 0 := by
  simp [brace_depth]

lemma balanced_length {l : List Char} (h : BalancedBraces l) : 2 ≤ l.length := by
  rcases balanced_cons h with ⟨tl, rfl⟩
  cases tl with
  | nil =>
    exfalso
    have := h.2.1
    simp [brace_depth] at this
  | cons x xs => simp

lemma balanced_getLast {l : List Char} (h : BalancedBraces l) :
    l.getLast? = some '\x7d' := by
  have hne := balanced_ne_nil h
  have hsplit : l = l.dropLast ++ [l.getLast hne] := by
    rw [List.dropLast_append_getLast hne]
  have hlen2 := balanced_length h
  have hdrop : 0 < brace_depth l.dropLast := by
    have htake : l.dropLast = l.take (l.length - 1) := by
      rw [List.dropLast_eq_take]
    rw [htake]
    exact h.2.2 (l.length - 1) (by omega) (by omega)
  have hdepth : brace_depth l = brace_depth l.dropLast + brace_depth [l.getLast hne] := by
    conv_lhs => rw [hsplit]
    rw [brace_depth_append]
  have hval : brace_depth [l.getLast hne] < 0 := by
    have := h.2.1
    omega
  have hch : l.getLast hne = '\x7d' := by
    rw [depth_singleton] at hval
    by_cases h1 : (l.getLast hne == '\x7b') = true
    · rw [if_pos h1] at hval
      omega
    · rw [if_neg h1] at hval
      by_cases h2 : (l.getLast hne == '\x7d') = true
      · exact beq_iff_eq.mp h2
      · rw [if_neg h2] at hval
        omega
  rw [List.getLast?_eq_getLast_of_ne_nil hne, hch]

/-- On a text of the shape `pre ++ obj ++ post` with a balanced `obj` and no
an opening brace in `pre`, the brace scanner of `_extract_json_from_text` returns
exactly `obj`. -/
lemma extract_json_chars_of_shape (pre obj post : List Char)
    (hobj : BalancedBraces obj) (hpre : '\x7b' ∉ pre) :
    extract_json_chars (pre ++ obj ++ post) = obj := by
  rcases balanced_cons hobj with ⟨inner, hcons⟩
  have hlast := balanced_getLast hobj
  have hshape := strip_chars_shape pre obj post hobj.1 hlast
  set pre2 := pre.dropWhile Char.isWhitespace with hpre2
  set post2 := (post.reverse.dropWhile Char.isWhitespace).reverse with hpost2
  have hpre2mem : '\x7b' ∉ pre2 := by
    intro hm
    exact hpre (mem_of_mem_dropWhile _ _ _ hm)
  have hfind : find_char '\x7b' (pre2 ++ (obj ++ post2)) = some pre2.length := by
    apply find_char_append _ _ _ hpre2mem
    rw [hcons]
    simp
  have hdrop : (pre2 ++ (obj ++ post2)).drop pre2.length = obj ++ post2 := by
    rw [List.drop_left]
  have hinner : 1 + brace_depth inner = 0 := by
    have := hobj.2.1
    rw [hcons] at this
    simp only [brace_depth] at this
    norm_num at this
    omega
  have hinner_ne : inner ≠ [] := by
    rintro rfl
    simp [brace_depth] at hinner
  have hscan_inner : find_closing_brace inner 1 = some (inner.length - 1) := by
    apply fcb_spec inner 1 (by omega) _ (by omega)
    intro n hn
    have := hobj.2.2 (n + 1) (by rw [hcons]; simpa using Nat.succ_lt_succ hn)
      (by omega)
    rw [hcons] at this
    simp only [List.take_succ_cons, brace_depth] at this
    norm_num at this
    omega
  have hscan : find_closing_brace (obj ++ post2) 0 = some (obj.length - 1) := by
    rw [hcons, List.cons_append, fcb_cons, if_pos (by rfl), zero_add]
    rw [fcb_append inner post2 1 _ hscan_inner, Option.map_some']
    have : inner.length - 1 + 1 = inner.length := by
      have := List.length_pos.mpr hinner_ne
      omega
    rw [this]
    simp
  have hobj_len : obj.length - 1 + 1 = obj.length := by
    have := balanced_length hobj
    omega
  have htake : (obj ++ post2).take (obj.length - 1 + 1) = obj := by
    rw [hobj_len, List.take_left]
  have hstrip_obj : strip_chars obj = obj := by
    unfold strip_chars
    rw [dropWhile_eq_self_of_head _ _ '\x7b' hobj.1 (by decide)]
    rw [dropWhile_eq_self_of_head _ _ '\x7d' (by rw [List.head?_reverse]; exact hlast)
      (by decide)]
    simp
  have hshape2 : strip_chars (pre ++ (obj ++ post)) = pre2 ++ (obj ++ post2) := by
    rw [← List.append_assoc, hshape, List.append_assoc]
  unfold extract_json_chars
  rw [List.append_assoc, hshape2]
  simp only [hfind, hdrop, hscan, htake, hstrip_obj]

lemma extract_json_chars_of_no_brace (text : List Char) (h : '\x7b' ∉ text) :
    extract_json_chars text = [] := by
  unfold extract_json_chars
  have hmem : '\x7b' ∉ strip_chars text := fun hm => h (mem_of_mem_strip_chars _ _ hm)
  simp only [find_char_eq_none_of_not_mem _ _ hmem]

lemma extract_json_chars_of_unbalanced (text : List Char) (s : Nat)
    (hfind : find_char '\x7b' (strip_chars text) = some s)
    (hnz : ∀ n, 0 < n → n ≤ ((strip_chars text).drop s).length →
      brace_depth (((strip_chars text).drop s).take n) ≠ 0) :
    extract_json_chars text = [] := by
  unfold extract_json_chars
  simp only [hfind]
  cases hscan : find_closing_brace ((strip_chars text).drop s) 0 with
  | none => simp
  | some i =>
    exfalso
    rcases fcb_some _ _ _ hscan with ⟨hlen, hdep⟩
    exact hnz (i + 1) (by omega) (by omega) (by omega)

lemma has_key_of_get_key (fields : List (String × Json)) (k : String) (v : Json)
    (h : get_key fields k = some v) : has_key fields k = true := by
  induction fields with
  | nil => cases h
  | cons p ps ih =>
    unfold get_key at h
    unfold has_key
    by_cases hp : (p.fst == k) = true
    · simp [hp]
    · rw [if_neg hp] at h
      simp only [List.any_cons, Bool.or_eq_true]
      exact Or.inr (ih h)

/-- C1 (amended): for a response of the shape `prose ++ object ++ prose`
where the object is a balanced brace block and **no an opening brace occurs in the
prose before the object**, `_extract_json_from_text` returns exactly the
object substring, outer braces included, whatever the prose after it is
(so in particular when the object contains nested objects the scan runs
to the matching outer a closing brace, not the first nested one). -/
theorem c1_extract_unique_balanced (pre obj post : List Char)
    (hobj : BalancedBraces obj) (hpre : '\x7b' ∉ pre) :
    extract_json_from_text (String.mk (pre ++ obj ++ post)) = String.mk obj := by
  unfold extract_json_from_text
  rw [show (String.mk (pre ++ obj ++ post)).data = pre ++ obj ++ post from rfl]
  rw [extract_json_chars_of_shape pre obj post hobj hpre]

/-- Witness for `c1_extract_unique_balanced`: prose before and after, and a
nested object inside the target object. -/
theorem c1_extract_unique_balanced_witness :
    extract_json_from_text "Here: \x7b\"a\": \x7b\"b\": 2\x7d\x7d done." =
      "\x7b\"a\": \x7b\"b\": 2\x7d\x7d" :=
  c1_extract_unique_balanced "Here: ".data "\x7b\"a\": \x7b\"b\": 2\x7d\x7d".data
    " done.".data (by decide) (by decide)

/-- C1 counterexample: the claim as stated is false.  The text
`see { here {"a": 1}` contains exactly one balanced brace block — the
slice `[11,19)`, which is exactly the serialization of the JSON object
`{"a": 1}` — yet `_extract_json_from_text` returns `""`, not that
substring: the scan starts at the *first* an opening brace (the stray one inside the
leading prose) and the counter never returns to zero. -/
theorem c1_counterexample :
    balanced_occurrences ("see \x7b here \x7b\"a\": 1\x7d".data) = [(11, 19)] ∧
    (("see \x7b here \x7b\"a\": 1\x7d".data).take 19).drop 11 =
      (serialize (Json.obj [("a", Json.num 1)])).data ∧
    extract_json_from_text "see \x7b here \x7b\"a\": 1\x7d" = "" := by
  exact ⟨by decide, by decide, by decide⟩

/-- C10: the brace counter of `_extract_json_from_text` counts braces
inside JSON string literals too.  The response
`{"a": "}"}` is the serialization of the JSON object whose (only) value
is the string `"}"` — valid JSON with a a closing brace inside a string value — and
the operation returns the 8-character proper head segment `{"a": "}`,
cut at the brace where the naive count reaches zero, not the complete
10-character object. -/
theorem c10_brace_inside_string_truncates :
    serialize (Json.obj [("a", Json.str "\x7d")]) = "\x7b\"a\": \"\x7d\"\x7d" ∧
    extract_json_from_text "\x7b\"a\": \"\x7d\"\x7d" =
      String.mk (("\x7b\"a\": \"\x7d\"\x7d".data).take 8) ∧
    8 < ("\x7b\"a\": \"\x7d\"\x7d".data).length ∧
    extract_json_from_text "\x7b\"a\": \"\x7d\"\x7d" ≠ "\x7b\"a\": \"\x7d\"\x7d" := by
  exact ⟨by decide, by decide, by decide, by decide⟩

lemma mem_of_starts_with (n h : List Char) (a : Char)
    (hs : starts_with n h = true) (ha : a ∈ n) : a ∈ h := by
  induction n generalizing h with
  | nil => cases ha
  | cons m ms ih =>
    cases h with
    | nil => cases hs
    | cons y ys =>
      simp only [starts_with, Bool.and_eq_true, beq_iff_eq] at hs
      rcases List.mem_cons.mp ha with rfl | hmem
      · rw [hs.1]
        exact List.mem_cons_self y ys
      · exact List.mem_cons_of_mem y (ih ys hs.2 hmem)

lemma contains_str_eq_false_of_not_mem (needle hay : List Char) (c : Char)
    (hc : c ∈ needle) (hh : c ∉ hay) : contains_str needle hay = false := by
  induction hay with
  | nil =>
    cases needle with
    | nil => cases hc
    | cons n ns => rfl
  | cons x xs ih =>
    have h1 : starts_with needle (x :: xs) = false := by
      cases hsw : starts_with needle (x :: xs) with
      | false => rfl
      | true => exact absurd (mem_of_starts_with _ _ c hsw hc) hh
    have h2 : contains_str needle xs = false :=
      ih (fun hm => hh (List.mem_cons_of_mem x hm))
    simp only [contains_str, h1, h2, Bool.or_self]

/-- C2 evidence (code bug): `prepare_prompt` ignores its input.  The prompt
built for the input `"Suez Canal Bank statement for March"` does not
contain that input anywhere (the hard-coded template contains no letter
`z` at all), and the function returns the same constant for every input —
contradicting the PromptBuilder contract, which requires the verbatim
input text between the instruction block and the output cue. -/
theorem c2_prepare_prompt_ignores_input :
    contains_str ("Suez Canal Bank statement for March".data)
      ((prepare_prompt "Suez Canal Bank statement for March").data) = false ∧
    ∀ s t : String, prepare_prompt s = prepare_prompt t := by
  constructor
  · apply contains_str_eq_false_of_not_mem _ _ 'z'
    · decide
    · show 'z' ∉ prompt_template.data
      unfold prompt_template
      simp only [String.data_append, List.mem_append, not_or]
      repeat' apply And.intro
      all_goals decide
  · exact fun s t => rfl

/-- C4: `_validate_result_structure` returns `true` exactly when
`bank_name` is present, `statement_period` is a dict holding both
`start_date` and `end_date`, and `accounts` is a list; it returns `false`
in every other case (in particular with `bank_name` missing,
`statement_period.start_date` missing, or `accounts` not a list). -/
theorem c4_validate_structure_iff (result : List (String × Json)) :
    validate_result_structure result = true ↔
      (has_key result "bank_name" = true ∧
        (∃ period, get_key result "statement_period" = some (Json.obj period) ∧
          has_key period "start_date" = true ∧ has_key period "end_date" = true) ∧
        (∃ accounts, get_key result "accounts" = some (Json.arr accounts))) := by
  unfold validate_result_structure
  constructor
  · intro h
    split at h
    case isTrue hall =>
      have hbank : has_key result "bank_name" = true := by
        unfold required_fields at hall
        simp only [List.all_cons, List.all_nil, Bool.and_eq_true] at hall
        exact hall.1
      split at h
      case h_1 period heq =>
        split at h
        case isTrue hdates =>
          rw [Bool.and_eq_true] at hdates
          split at h
          case h_1 accounts heq2 =>
            exact ⟨hbank, ⟨period, heq, hdates.1, hdates.2⟩, ⟨accounts, heq2⟩⟩
          case h_2 => cases h
        case isFalse hdates => cases h
      case h_2 => cases h
    case isFalse hall => cases h
  · rintro ⟨hbank, ⟨period, hsp, hstart, hend⟩, ⟨accounts, hacc⟩⟩
    have hall : (required_fields.all (fun f => has_key result f)) = true := by
      unfold required_fields
      simp only [List.all_cons, List.all_nil, Bool.and_eq_true]
      exact ⟨hbank, has_key_of_get_key _ _ _ hsp,
        has_key_of_get_key _ _ _ hacc, trivial⟩
    rw [if_pos hall, hsp]
    simp only [hstart, hend, Bool.and_self, if_pos, hacc]

/-- C3: when the generated response has no an opening brace at all, or has one whose
brace-depth count never returns to zero before the end of input
(truncated output), `_extract_json_from_text` returns `""` — never a
partial substring — and `process_text` fails with `NO_JSON_FOUND`
(the raw output is kept in `data` for debugging). -/
theorem c3_unbalanced_reports_no_json_found (raw : String)
    (h : ('\x7b' ∉ raw.data) ∨
      ('\x7b' ∈ raw.data ∧ ∀ s, find_char '\x7b' (strip_chars raw.data) = some s →
        ∀ n, 0 < n → n ≤ ((strip_chars raw.data).drop s).length →
          brace_depth (((strip_chars raw.data).drop s).take n) ≠ 0)) :
    extract_json_from_text raw = "" ∧
    ∀ (gen : String → Except String String) (parse : String → Except String Json)
      (processed_at processing_time : Json) (time_msg : String) (text : String),
      strip text ≠ "" → gen text = Except.ok raw →
      process_text true gen parse processed_at processing_time time_msg text =
        ⟨false, "AI model output does not contain valid JSON",
          some "NO_JSON_FOUND", Json.str raw, none⟩ := by
  have hex : extract_json_from_text raw = "" := by
    unfold extract_json_from_text
    rcases h with hno | ⟨hmem, hnz⟩
    · rw [extract_json_chars_of_no_brace _ hno]
    · have hmem2 : '\x7b' ∈ strip_chars raw.data :=
        mem_strip_chars_of_mem _ _ hmem (by decide)
      cases hf : find_char '\x7b' (strip_chars raw.data) with
      | none => exact absurd hf (find_char_ne_none_of_mem _ _ hmem2)
      | some s =>
        rw [extract_json_chars_of_unbalanced _ s hf (hnz s hf)]
  refine ⟨hex, ?_⟩
  intro gen parse processed_at processing_time time_msg text h1 h2
  have htxt : text ≠ "" := by
    rintro rfl
    exact h1 rfl
  unfold process_text
  rw [if_neg (by simp)]
  rw [if_neg (by simp [htxt, h1])]
  rw [h2]
  simp only [hex, if_pos]

/-- Witness for `c3_unbalanced_reports_no_json_found` at the spec's own
example response, which contains no brace at all. -/
theorem c3_unbalanced_witness :
    process_text true (fun _ => Except.ok "Sorry, I cannot process this.")
      (fun _ => Except.error "Expecting value") Json.null Json.null "0.00"
      "statement text" =
      ⟨false, "AI model output does not contain valid JSON",
        some "NO_JSON_FOUND", Json.str "Sorry, I cannot process this.", none⟩ :=
  (c3_unbalanced_reports_no_json_found "Sorry, I cannot process this."
    (Or.inl (by decide))).2 _ _ _ _ _ "statement text" (by decide) rfl

/-- C6: with the model loaded, an empty or whitespace-only `text_content`
makes `process_text` fail with `TEXT_EMPTY`; the result is a constant
that does not depend on the generative capability `gen`, which is
therefore never invoked. -/
theorem c6_empty_text_short_circuits
    (gen : String → Except String String) (parse : String → Except String Json)
    (processed_at processing_time : Json) (time_msg : String)
    (text_content : String) (h : strip text_content = "") :
    process_text true gen parse processed_at processing_time time_msg
      text_content =
      ⟨false, "Empty text content provided", some "TEXT_EMPTY",
        Json.null, none⟩ := by
  unfold process_text
  rw [if_neg (by simp)]
  rw [if_pos (by simp [h])]

/-- Witness for `c6_empty_text_short_circuits` on a whitespace-only input,
with a generator that would return a perfectly valid answer if it were
ever called. -/
theorem c6_empty_text_witness :
    process_text true (fun _ => Except.ok "ignored")
      (fun _ => Except.error "ignored") Json.null Json.null "0.00" "  " =
      ⟨false, "Empty text content provided", some "TEXT_EMPTY",
        Json.null, none⟩ :=
  c6_empty_text_short_circuits _ _ _ _ _ "  " (by decide)

/-- C8: when a brace-balanced substring is extracted from the response but
fails to parse as JSON, `process_text` fails with `INVALID_JSON_FORMAT`
and the diagnostic payload holds both the full raw model output
(`raw_output`) and the extracted substring (`extracted_content`),
together with the parse error. -/
theorem c8_invalid_json_keeps_diagnostics
    (gen : String → Except String String) (parse : String → Except String Json)
    (processed_at processing_time : Json) (time_msg : String)
    (text raw e : String)
    (h1 : strip text ≠ "") (h2 : gen text = Except.ok raw)
    (h3 : extract_json_from_text raw ≠ "")
    (h4 : parse (extract_json_from_text raw) = Except.error e) :
    process_text true gen parse processed_at processing_time time_msg text =
      ⟨false, "AI model returned invalid JSON format",
        some "INVALID_JSON_FORMAT",
        Json.obj [("raw_output", Json.str raw),
          ("extracted_content", Json.str (extract_json_from_text raw)),
          ("parse_error", Json.str e)], none⟩ := by
  have htxt : text ≠ "" := by
    rintro rfl
    exact h1 rfl
  unfold process_text
  rw [if_neg (by simp)]
  rw [if_neg (by simp [htxt, h1])]
  rw [h2]
  simp only [if_neg h3, h4]

/-- Witness for `c8_invalid_json_keeps_diagnostics`: the response embeds a
brace-balanced block that is not valid JSON. -/
theorem c8_invalid_json_witness :
    process_text true (fun _ => Except.ok "note \x7bnot json\x7d end")
      (fun _ => Except.error "Expecting property name") Json.null Json.null
      "0.00" "statement text" =
      ⟨false, "AI model returned invalid JSON format",
        some "INVALID_JSON_FORMAT",
        Json.obj [("raw_output", Json.str "note \x7bnot json\x7d end"),
          ("extracted_content",
            Json.str (extract_json_from_text "note \x7bnot json\x7d end")),
          ("parse_error", Json.str "Expecting property name")], none⟩ :=
  c8_invalid_json_keeps_diagnostics _ _ _ _ _ "statement text"
    "note \x7bnot json\x7d end" "Expecting property name"
    (by decide) rfl (by decide) rfl

lemma extract_text_with_ocr_method (o : Except String (List String))
    (filename : String) :
    (extract_text_with_ocr o filename).method_used = some (some "ocr") := by
  unfold extract_text_with_ocr
  cases o with
  | error e => rfl
  | ok pages =>
    dsimp only
    by_cases hs : strip (joined_pages pages) ≠ ""
    · rw [if_pos hs]
    · rw [if_neg hs]

lemma extract_text_directly_whitespace (pages : List String) (filename : String)
    (h : strip (joined_pages pages) = "") :
    extract_text_directly (Except.ok pages) filename =
      ⟨false, "No text found in " ++ filename ++ " using direct extraction",
        some "NO_TEXT_FOUND", Json.null, some (some "direct")⟩ := by
  unfold extract_text_directly
  dsimp only
  rw [if_neg (by simp [h])]

/-- C5 (amended): when direct page extraction yields only whitespace, the
whitespace text is never accepted: with OCR available the returned
outcome's `method_used` is `"ocr"`; with OCR unavailable the acquisition
fails — but with error code `OCR_NOT_AVAILABLE`, not `NO_TEXT_FOUND` as
the claim stated. -/
theorem c5_whitespace_never_accepted
    (ocr_available : Bool) (pages : List String)
    (ocr_outcome : Except String (List String)) (filename : String)
    (h : strip (joined_pages pages) = "") :
    (ocr_available = true →
      ((extract_text_from_pdf_bytes true ocr_available TmpOutcome.ok
        (Except.ok pages) ocr_outcome filename false).fst).method_used =
          some (some "ocr")) ∧
    (ocr_available = false →
      ((extract_text_from_pdf_bytes true ocr_available TmpOutcome.ok
        (Except.ok pages) ocr_outcome filename false).fst).success = false ∧
      ((extract_text_from_pdf_bytes true ocr_available TmpOutcome.ok
        (Except.ok pages) ocr_outcome filename false).fst).error =
          some "OCR_NOT_AVAILABLE") := by
  have hred : extract_text_from_pdf_bytes true ocr_available TmpOutcome.ok
      (Except.ok pages) ocr_outcome filename false =
      (if ocr_available then
        (extract_text_with_ocr ocr_outcome filename, false)
      else
        (⟨false,
          "Direct text extraction failed and OCR not available for "
            ++ filename, some "OCR_NOT_AVAILABLE", Json.null,
          some (some "none")⟩, false)) := by
    unfold extract_text_from_pdf_bytes
    rw [if_neg (by simp)]
    dsimp only
    rw [if_pos (by decide)]
    rw [extract_text_directly_whitespace pages filename h]
    rw [if_neg (by simp [data_truthy_stripped])]
  constructor
  · intro hoa
    rw [hred, if_pos hoa]
    exact extract_text_with_ocr_method _ _
  · intro hoa
    rw [hred, if_neg (by rw [hoa]; exact Bool.false_ne_true)]
    exact ⟨rfl, rfl⟩

/-- Witness for `c5_whitespace_never_accepted`: whitespace-only direct
pages, OCR available and recovering text. -/
theorem c5_whitespace_never_accepted_witness :
    ((extract_text_from_pdf_bytes true true TmpOutcome.ok
      (Except.ok ["   "]) (Except.ok ["recovered text"]) "scan.pdf"
      false).fst).method_used = some (some "ocr") :=
  (c5_whitespace_never_accepted true ["   "] (Except.ok ["recovered text"])
    "scan.pdf" (by decide)).1 rfl

/-- C5 counterexample: the claim as stated says the no-OCR failure carries
`NO_TEXT_FOUND`; the code returns `OCR_NOT_AVAILABLE` there (the
`NO_TEXT_FOUND` produced inside `_extract_text_directly` is discarded
when the fallback is selected). -/
theorem c5_counterexample :
    ((extract_text_from_pdf_bytes true false TmpOutcome.ok
      (Except.ok ["   "]) (Except.ok []) "scan.pdf" false).fst).error =
        some "OCR_NOT_AVAILABLE" ∧
    ((extract_text_from_pdf_bytes true false TmpOutcome.ok
      (Except.ok ["   "]) (Except.ok []) "scan.pdf" false).fst).error ≠
        some "NO_TEXT_FOUND" ∧
    ((extract_text_from_pdf_bytes true false TmpOutcome.ok
      (Except.ok ["   "]) (Except.ok []) "scan.pdf" false).fst).success =
        false := by
  exact ⟨rfl, by decide, rfl⟩

/-- C9 (amended): on every run of `extract_text_from_pdf_bytes` in which the
temporary file's path gets recorded (the create-and-write block completed,
`TmpOutcome.ok`) — and also when the temp file was never created — the
temporary file does not exist on disk when the function returns, on every
exit path.  (The exception: when `temp_file.write` raises after the file
was created, the path was never assigned and the `finally` block skips the
unlink — see the counterexample.) -/
theorem c9_temp_file_removed
    (pra oa : Bool) (tmp : TmpOutcome) (d o : Except String (List String))
    (fn : String) (fo : Bool) (h : ∀ m, tmp ≠ TmpOutcome.write_error m) :
    (extract_text_from_pdf_bytes pra oa tmp d o fn fo).snd = false := by
  unfold extract_text_from_pdf_bytes
  split
  · rfl
  · split
    · rfl
    · exact absurd rfl (h _)
    · split
      · dsimp only
        split
        · rfl
        · split
          · rfl
          · rfl
      · split
        · rfl
        · rfl

/-- Witness for `c9_temp_file_removed` on a normal successful run. -/
theorem c9_temp_file_removed_witness :
    (extract_text_from_pdf_bytes true true TmpOutcome.ok
      (Except.ok ["page one"]) (Except.ok ["page one"]) "doc.pdf"
      false).snd = false :=
  c9_temp_file_removed true true TmpOutcome.ok (Except.ok ["page one"])
    (Except.ok ["page one"]) "doc.pdf" false (by intro m hm; cases hm)

/-- C9 counterexample: if the write into the fresh temporary file raises
(e.g. disk full), the file was already created on disk but
`temp_file_path` is still `None`, so the `finally` clause does not remove
it: the temporary file survives the call, contradicting the claim's
"removed on every exit path". -/
theorem c9_counterexample :
    (extract_text_from_pdf_bytes true true
      (TmpOutcome.write_error "No space left on device")
      (Except.ok ["page one"]) (Except.ok ["page one"]) "doc.pdf"
      false).snd = true := rfl


lemma process_text_error_classified (loaded : Bool)
    (gen : String → Except String String) (parse : String → Except String Json)
    (pa pt : Json) (tm text : String)
    (hfail : (process_text loaded gen parse pa pt tm text).success = false) :
    ∃ c, (process_text loaded gen parse pa pt tm text).error = some c ∧
      (c ∈ error_taxonomy ∨ (∃ m t, gen t = Except.error m ∧ c = m) ∨
        c = item_assignment_error_message) := by
  unfold process_text at hfail ⊢
  by_cases hl : (!loaded) = true
  · rw [if_pos hl]
    exact ⟨"MODEL_NOT_LOADED", rfl, Or.inl (by decide)⟩
  · rw [if_neg hl] at hfail ⊢
    by_cases he : (text = "" || strip text = "") = true
    · rw [if_pos he]
      exact ⟨"TEXT_EMPTY", rfl, Or.inl (by decide)⟩
    · rw [if_neg he] at hfail ⊢
      cases hg : gen text with
      | error e =>
        exact ⟨e, rfl, Or.inr (Or.inl ⟨e, text, hg, rfl⟩)⟩
      | ok result =>
        rw [hg] at hfail
        dsimp only at hfail ⊢
        by_cases hj : extract_json_from_text result = ""
        · rw [if_pos hj]
          exact ⟨"NO_JSON_FOUND", rfl, Or.inl (by decide)⟩
        · rw [if_neg hj] at hfail ⊢
          cases hp : parse (extract_json_from_text result) with
          | error e =>
            exact ⟨"INVALID_JSON_FORMAT", rfl, Or.inl (by decide)⟩
          | ok parsed =>
            rw [hp] at hfail
            cases parsed with
            | obj fields =>
              dsimp only at hfail ⊢
              by_cases hv : (!validate_result_structure
                  (set_key (set_key fields "processed_at" pa)
                    "processing_time_seconds" pt)) = true
              · rw [if_pos hv]
                exact ⟨"INVALID_AI_OUTPUT", rfl, Or.inl (by decide)⟩
              · rw [if_neg hv] at hfail
                simp at hfail
            | null =>
              exact ⟨item_assignment_error_message, rfl, Or.inr (Or.inr rfl)⟩
            | bool b =>
              exact ⟨item_assignment_error_message, rfl, Or.inr (Or.inr rfl)⟩
            | num n =>
              exact ⟨item_assignment_error_message, rfl, Or.inr (Or.inr rfl)⟩
            | str s =>
              exact ⟨item_assignment_error_message, rfl, Or.inr (Or.inr rfl)⟩
            | arr a =>
              exact ⟨item_assignment_error_message, rfl, Or.inr (Or.inr rfl)⟩

lemma extract_text_directly_success_error (d : Except String (List String))
    (fn : String) (h : (extract_text_directly d fn).success = true) :
    (extract_text_directly d fn).error = none := by
  unfold extract_text_directly at h ⊢
  cases d with
  | error e =>
    dsimp only at h
    simp at h
  | ok pages =>
    dsimp only at h ⊢
    by_cases hs : strip (joined_pages pages) ≠ ""
    · rw [if_pos hs]
    · rw [if_neg hs] at h
      simp at h

lemma extract_text_with_ocr_classified (o : Except String (List String))
    (fn : String) :
    ((extract_text_with_ocr o fn).success = true ∧
      (extract_text_with_ocr o fn).error = none) ∨
    (extract_text_with_ocr o fn).error = some "NO_TEXT_FOUND" ∨
    (∃ m, o = Except.error m ∧ (extract_text_with_ocr o fn).error = some m) := by
  unfold extract_text_with_ocr
  cases o with
  | error e => exact Or.inr (Or.inr ⟨e, rfl, rfl⟩)
  | ok pages =>
    dsimp only
    by_cases hs : strip (joined_pages pages) ≠ ""
    · rw [if_pos hs]
      exact Or.inl ⟨rfl, rfl⟩
    · rw [if_neg hs]
      exact Or.inr (Or.inl rfl)

lemma extract_bytes_classified (pra oa : Bool) (tmp : TmpOutcome)
    (d o : Except String (List String)) (fn : String) (fo : Bool) :
    (((extract_text_from_pdf_bytes pra oa tmp d o fn fo).fst).success = true ∧
      ((extract_text_from_pdf_bytes pra oa tmp d o fn fo).fst).error = none) ∨
    (∃ c, ((extract_text_from_pdf_bytes pra oa tmp d o fn fo).fst).error =
        some c ∧
      (c ∈ error_taxonomy ∨
        (∃ m, (tmp = TmpOutcome.write_error m ∨ tmp = TmpOutcome.create_error m ∨
          o = Except.error m) ∧ c = m))) := by
  unfold extract_text_from_pdf_bytes
  split
  · exact Or.inr ⟨"NO_EXTRACTION_LIBRARIES", rfl, Or.inl (by decide)⟩
  · split
    · next m =>
      exact Or.inr ⟨m, rfl, Or.inr ⟨m, Or.inr (Or.inl rfl), rfl⟩⟩
    · next m =>
      exact Or.inr ⟨m, rfl, Or.inr ⟨m, Or.inl rfl, rfl⟩⟩
    · dsimp only
      split
      · split
        · next hacc =>
          rw [Bool.and_eq_true] at hacc
          exact Or.inl ⟨hacc.1, extract_text_directly_success_error d fn hacc.1⟩
        · split
          · rcases extract_text_with_ocr_classified o fn with h1 | h2 | ⟨m, hm, he⟩
            · exact Or.inl h1
            · exact Or.inr ⟨"NO_TEXT_FOUND", h2, Or.inl (by decide)⟩
            · exact Or.inr ⟨m, he, Or.inr ⟨m, Or.inr (Or.inr hm), rfl⟩⟩
          · exact Or.inr ⟨"OCR_NOT_AVAILABLE", rfl, Or.inl (by decide)⟩
      · split
        · rcases extract_text_with_ocr_classified o fn with h1 | h2 | ⟨m, hm, he⟩
          · exact Or.inl h1
          · exact Or.inr ⟨"NO_TEXT_FOUND", h2, Or.inl (by decide)⟩
          · exact Or.inr ⟨m, he, Or.inr ⟨m, Or.inr (Or.inr hm), rfl⟩⟩
        · exact Or.inr ⟨"OCR_NOT_AVAILABLE", rfl, Or.inl (by decide)⟩

lemma process_file_error_classified (loaded pra oa : Bool) (tmp : TmpOutcome)
    (d o : Except String (List String))
    (gen : String → Except String String) (parse : String → Except String Json)
    (pa pt : Json) (tm fn : String) (fo : Bool)
    (hfail : (process_file loaded pra oa tmp d o gen parse pa pt tm fn
      fo).success = false) :
    ∃ c, (process_file loaded pra oa tmp d o gen parse pa pt tm fn fo).error =
        some c ∧
      (c ∈ error_taxonomy ∨ c = "PDF_SERVICE_NOT_AVAILABLE" ∨
        (∃ m, (tmp = TmpOutcome.write_error m ∨ tmp = TmpOutcome.create_error m ∨
          o = Except.error m) ∧ c = m) ∨
        (∃ m t, gen t = Except.error m ∧ c = m) ∨
        c = item_assignment_error_message) := by
  unfold process_file at hfail ⊢
  by_cases hl : (!loaded) = true
  · rw [if_pos hl]
    exact ⟨"MODEL_NOT_LOADED", rfl, Or.inl (by decide)⟩
  · rw [if_neg hl] at hfail ⊢
    by_cases hs : (!(pra || oa)) = true
    · rw [if_pos hs]
      exact ⟨"PDF_SERVICE_NOT_AVAILABLE", rfl, Or.inr (Or.inl rfl)⟩
    · rw [if_neg hs] at hfail ⊢
      dsimp only at hfail ⊢
      by_cases hx : (!((extract_text_from_pdf_bytes pra oa tmp d o fn
          fo).fst).success) = true
      · rw [if_pos hx]
        rcases extract_bytes_classified pra oa tmp d o fn fo with
          ⟨hsucc, _⟩ | ⟨c, hc, hclass⟩
        · rw [hsucc] at hx
          exact absurd hx (by decide)
        · refine ⟨c, hc, ?_⟩
          rcases hclass with h1 | ⟨m, hm, hcm⟩
          · exact Or.inl h1
          · exact Or.inr (Or.inr (Or.inl ⟨m, hm, hcm⟩))
      · rw [if_neg hx] at hfail ⊢
        set res := process_text loaded gen parse pa pt tm
          (data_as_str ((extract_text_from_pdf_bytes pra oa tmp d o fn
            fo).fst).data) with hres
        have hpt := process_text_error_classified loaded gen parse pa pt tm
          (data_as_str ((extract_text_from_pdf_bytes pra oa tmp d o fn
            fo).fst).data)
        rw [← hres] at hpt
        cases hd : res.data with
        | obj fields =>
          rw [hd] at hfail
          dsimp only at hfail ⊢
          by_cases ha : (res.success && !fields.isEmpty) = true
          · rw [if_pos ha] at hfail ⊢
            rw [Bool.and_eq_true] at ha
            rw [show ({ res with data := Json.obj (set_key fields
              "extraction_method" (match ((extract_text_from_pdf_bytes pra oa
                tmp d o fn fo).fst).method_used with
                | some (some m) => Json.str m
                | some none => Json.null
                | none => Json.str "unknown")) } : PyResult).success =
              res.success from rfl] at hfail
            rw [hfail] at ha
            exact absurd ha.1 (by decide)
          · rw [if_neg ha] at hfail ⊢
            rcases hpt hfail with ⟨c, hc, hclass⟩
            refine ⟨c, hc, ?_⟩
            rcases hclass with h1 | h2 | h3
            · exact Or.inl h1
            · exact Or.inr (Or.inr (Or.inr (Or.inl h2)))
            · exact Or.inr (Or.inr (Or.inr (Or.inr h3)))
        | null =>
          rw [hd] at hfail
          dsimp only at hfail ⊢
          rcases hpt hfail with ⟨c, hc, hclass⟩
          refine ⟨c, hc, ?_⟩
          rcases hclass with h1 | h2 | h3
          · exact Or.inl h1
          · exact Or.inr (Or.inr (Or.inr (Or.inl h2)))
          · exact Or.inr (Or.inr (Or.inr (Or.inr h3)))
        | bool b =>
          rw [hd] at hfail
          dsimp only at hfail ⊢
          rcases hpt hfail with ⟨c, hc, hclass⟩
          refine ⟨c, hc, ?_⟩
          rcases hclass with h1 | h2 | h3
          · exact Or.inl h1
          · exact Or.inr (Or.inr (Or.inr (Or.inl h2)))
          · exact Or.inr (Or.inr (Or.inr (Or.inr h3)))
        | num n =>
          rw [hd] at hfail
          dsimp only at hfail ⊢
          rcases hpt hfail with ⟨c, hc, hclass⟩
          refine ⟨c, hc, ?_⟩
          rcases hclass with h1 | h2 | h3
          · exact Or.inl h1
          · exact Or.inr (Or.inr (Or.inr (Or.inl h2)))
          · exact Or.inr (Or.inr (Or.inr (Or.inr h3)))
        | str s =>
          rw [hd] at hfail
          dsimp only at hfail ⊢
          rcases hpt hfail with ⟨c, hc, hclass⟩
          refine ⟨c, hc, ?_⟩
          rcases hclass with h1 | h2 | h3
          · exact Or.inl h1
          · exact Or.inr (Or.inr (Or.inr (Or.inl h2)))
          · exact Or.inr (Or.inr (Or.inr (Or.inr h3)))
        | arr a =>
          rw [hd] at hfail
          dsimp only at hfail ⊢
          rcases hpt hfail with ⟨c, hc, hclass⟩
          refine ⟨c, hc, ?_⟩
          rcases hclass with h1 | h2 | h3
          · exact Or.inl h1
          · exact Or.inr (Or.inr (Or.inr (Or.inl h2)))
          · exact Or.inr (Or.inr (Or.inr (Or.inr h3)))

/-- C7 (amended): `process_text` and `process_file` are total functions into
result dicts — every failure comes back as a tagged result with
`success = false` and never as an exception escaping the pipeline — and
the error field of a failure is a documented taxonomy code, **or**
`PDF_SERVICE_NOT_AVAILABLE` (an undocumented code `process_file` returns
when the PDF service is down), **or** the raw message of the collaborator
fault that the `except` blocks caught (a generator exception, a temp-file
exception, an OCR exception, or the item-assignment `TypeError` when the
model output parses to a non-dict) — contrary to the claim, which allowed
only the nine taxonomy codes. -/
theorem c7_failures_are_tagged_results :
    (∀ (loaded : Bool) (gen : String → Except String String)
      (parse : String → Except String Json) (pa pt : Json) (tm text : String),
      (process_text loaded gen parse pa pt tm text).success = false →
      ∃ c, (process_text loaded gen parse pa pt tm text).error = some c ∧
        (c ∈ error_taxonomy ∨ (∃ m t, gen t = Except.error m ∧ c = m) ∨
          c = item_assignment_error_message)) ∧
    (∀ (loaded pra oa : Bool) (tmp : TmpOutcome)
      (d o : Except String (List String)) (gen : String → Except String String)
      (parse : String → Except String Json) (pa pt : Json) (tm fn : String)
      (fo : Bool),
      (process_file loaded pra oa tmp d o gen parse pa pt tm fn fo).success =
        false →
      ∃ c, (process_file loaded pra oa tmp d o gen parse pa pt tm fn
          fo).error = some c ∧
        (c ∈ error_taxonomy ∨ c = "PDF_SERVICE_NOT_AVAILABLE" ∨
          (∃ m, (tmp = TmpOutcome.write_error m ∨
            tmp = TmpOutcome.create_error m ∨ o = Except.error m) ∧ c = m) ∨
          (∃ m t, gen t = Except.error m ∧ c = m) ∨
          c = item_assignment_error_message)) :=
  ⟨process_text_error_classified, process_file_error_classified⟩

/-- C7 counterexample: with the model loaded but the PDF service
unavailable, `process_file` fails with the stable-looking but undocumented
code `PDF_SERVICE_NOT_AVAILABLE`, which is not in the claim's taxonomy. -/
theorem c7_counterexample :
    (process_file true false false TmpOutcome.ok (Except.ok [])
      (Except.ok []) (fun _ => Except.ok "") (fun _ => Except.error "x")
      Json.null Json.null "0.00" "doc.pdf" false).error =
        some "PDF_SERVICE_NOT_AVAILABLE" ∧
    "PDF_SERVICE_NOT_AVAILABLE" ∉ error_taxonomy ∧
    (process_file true false false TmpOutcome.ok (Except.ok [])
      (Except.ok []) (fun _ => Except.ok "") (fun _ => Except.error "x")
      Json.null Json.null "0.00" "doc.pdf" false).success = false :=
  ⟨rfl, by decide, rfl⟩

/-- Witness for `c7_failures_are_tagged_results`: a concrete failing
`process_text` run (model not loaded) classified by the theorem. -/
theorem c7_failures_are_tagged_results_witness :
    ∃ c, (process_text false (fun _ => Except.ok "out")
        (fun _ => Except.error "e") Json.null Json.null "0.00"
        "text").error = some c ∧
      (c ∈ error_taxonomy ∨
        (∃ m t, (fun _ : String => Except.ok (ε := String) "out") t =
          Except.error m ∧ c = m) ∨
        c = item_assignment_error_message) :=
  c7_failures_are_tagged_results.1 false (fun _ => Except.ok "out")
    (fun _ => Except.error "e") Json.null Json.null "0.00" "text" rfl
